import Mathlib

/-!
Shallow embedding of the WhatsApp webhook service (Conversly/webhook_WA):
the signature verifier (src/utils/webhook.ts), the webhook orchestrator and
message pipeline (src/services/webhook-handler.ts, unified-messages variant),
and the HTTP POST /webhook handler (src/index.ts).
-/

namespace WebhookWA

/-! ## Signature Verifier (src/utils/webhook.ts)

`Buffer.from(s)` in Node produces the UTF-8 bytes of `s`; we model a buffer
as the list of byte values. `crypto.createHmac('sha256', k).update(p).digest('hex')`
is modelled as an abstract parameter `hmacHex : secret → payload → hex string`,
since every claim about the verifier is relative to the same HMAC function. -/

/-- UTF-8 encoding of a single character as its byte values. -/
def utf8EncodeChar (c : Char) : List Nat :=
  let n := c.toNat
  if n < 0x80 then [n]
  else if n < 0x800 then [0xC0 + n / 0x40, 0x80 + n % 0x40]
  else if n < 0x10000 then
    [0xE0 + n / 0x1000, 0x80 + (n / 0x40) % 0x40, 0x80 + n % 0x40]
  else
    [0xF0 + n / 0x40000, 0x80 + (n / 0x1000) % 0x40,
     0x80 + (n / 0x40) % 0x40, 0x80 + n % 0x40]

/-- Model of Node's `Buffer.from(s)`: the UTF-8 bytes of `s`. -/
def bufferFrom (s : String) : List Nat :=
  s.data.foldr (fun c acc => utf8EncodeChar c ++ acc) []

/-- Model of `crypto.timingSafeEqual` on two buffers of equal length:
its result is plain equality of the byte sequences (the timing behaviour is
not observable in the embedding). -/
def timingSafeEqual (a b : List Nat) : Bool :=
  a == b

/-- Embedding of `verifyWebhookSignature(payload, signature, appSecret)`
from src/utils/webhook.ts, parameterised by the HMAC-SHA256-hex function.
The source computes `expected = 'sha256=' + hmacHex(appSecret, payload)`,
returns `false` when the two buffers differ in length, and otherwise
returns `crypto.timingSafeEqual(sigBuf, expBuf)`; a thrown error is caught
and turned into `false` (the embedding is total, so no catch arm is needed). -/
def verifyWebhookSignature (hmacHex : String → String → String)
    (payload signature appSecret : String) : Bool :=
  let expected := "sha256=" ++ hmacHex appSecret payload
  let sigBuf := bufferFrom signature
  let expBuf := bufferFrom expected
  if sigBuf.length ≠ expBuf.length then false
  else timingSafeEqual sigBuf expBuf

/-- Instrumented copy of `verifyWebhookSignature`: the second component
records whether the constant-time comparison (`crypto.timingSafeEqual`)
was performed on this run. -/
def verifyWebhookSignatureTraced (hmacHex : String → String → String)
    (payload signature appSecret : String) : Bool × Bool :=
  let expected := "sha256=" ++ hmacHex appSecret payload
  let sigBuf := bufferFrom signature
  let expBuf := bufferFrom expected
  if sigBuf.length ≠ expBuf.length then (false, false)
  else (timingSafeEqual sigBuf expBuf, true)

/-! ## Data model

Rows of the persistence collaborator, constructed at the persistence boundary
from the columns the pipeline actually reads or writes. -/

/-- Truthiness of a JS value that is `undefined` or a string
(`undefined` and `""` are falsy). -/
def jsTruthy : Option String → Bool
  | none => false
  | some s => s ≠ ""

/-- JS `a || b` for `a : string | undefined` with a string default. -/
def jsOr (a : Option String) (b : String) : String :=
  match a with
  | none => b
  | some s => if s = "" then b else s

/-- Model of `Date#toISOString` for a `Date` built from epoch seconds `n`
(injective encoding; the calendar formatting itself is never branched on). -/
def toISOString (n : Nat) : String :=
  "iso:" ++ toString n

/-- Row of `whatsapp_accounts` as selected by the orchestrator
(`SELECT id, chatbot_id, phone_number_id, access_token, waba_id, phone_number`). -/
structure Account where
  id : String
  chatbot_id : String
  phone_number_id : String
  access_token : String
  waba_id : String
  phone_number : String
  status : String
deriving DecidableEq

/-- The `whatsapp_user_metadata` JSON object written on contact insert; the
update path rewrites only `last_seen_at` via `jsonb_set`. Constant fields
(`source: 'organic'`, `opt_in_status: true`) are not stored since they are
never read back. -/
structure ContactMeta where
  wa_id : String
  profile_name : String
  first_seen_at : String
  last_seen_at : String
  last_inbound_message_id : String
  waba_id : String
  phone_number_id : String
  display_phone_number : String
deriving DecidableEq

/-- Row of `whatsapp_contacts`. -/
structure Contact where
  id : String
  chatbot_id : String
  phone_number : String
  display_name : String
  whatsapp_user_metadata : ContactMeta
deriving DecidableEq

/-- Row of `chatbot` as selected (`SELECT id, api_key`); `api_key` may be
NULL, modelled as `none`. -/
structure Chatbot where
  id : String
  api_key : Option String
deriving DecidableEq

/-- The `channel_message_metadata` JSON written on message rows. User rows
carry `timestamp`, assistant rows carry `responseTimeMs`; `status` appears
only after a delivery-status merge (`jsonb_set`); `contactId` is set by the
unified-messages pipeline. -/
structure MsgMeta where
  phoneNumber : String
  waMessageId : String
  messageType : String
  timestamp : Option String
  responseTimeMs : Option Nat
  contactId : Option String
  status : Option String
deriving DecidableEq

/-- Row of the unified `messages` table. `type` is the direction
(`"user"` or `"assistant"`); `created_at` is an abstract instant. -/
structure MessageRow where
  chatbot_id : String
  channel : String
  type : String
  content : String
  unique_conv_id : String
  citations : List String
  channel_message_metadata : MsgMeta
  created_at : Nat
deriving DecidableEq

/-- The persistent store reachable from the pipeline. -/
structure Store where
  accounts : List Account
  contacts : List Contact
  chatbots : List Chatbot
  messages : List MessageRow
deriving DecidableEq

/-! ## Webhook payload (duck-typed envelope) -/

/-- Entry of `value.contacts` (`{ profile: { name }, wa_id }`). -/
structure WContact where
  wa_id : String
  name : String
deriving DecidableEq

/-- One inbound message of the envelope. Optional nested fields are
flattened to the leaves the handler reads; `timestamp` is the numeric value
of the decimal-string field (`parseInt(message.timestamp)`), in seconds. -/
structure WAMessage where
  from_ : String
  id : String
  timestamp : Nat
  type : String
  text_body : Option String
  image_caption : Option String
  video_caption : Option String
  document_filename : Option String
  location : Option (Int × Int)
  button_text : Option String
  interactive_type : Option String
  interactive_button_reply_title : Option String
  interactive_list_reply_title : Option String
deriving DecidableEq

/-- One entry of `value.statuses`. -/
structure StatusEvent where
  id : String
  status : String
  recipient_id : String
deriving DecidableEq

/-- One element of `entry[].changes[]`. A missing `value.metadata.phone_number_id`
is `none`; missing `contacts`/`messages`/`statuses` arrays are `[]`. -/
structure Change where
  field : String
  phone_number_id : Option String
  contacts : List WContact
  messages : List WAMessage
  statuses : List StatusEvent
deriving DecidableEq

/-- One element of `payload.entry`. -/
structure WAEntry where
  id : String
  changes : List Change
deriving DecidableEq

/-- The webhook envelope. -/
structure Payload where
  object : String
  entry : List WAEntry
deriving DecidableEq

/-! ## External collaborators and effect log -/

/-- One element of the serialized history (`{role, content}`). -/
structure HistoryItem where
  role : String
  content : String
deriving DecidableEq

/-- Request body of the POST to `<RESPONSE_API_BASE_URL>/response`
(`query` is kept as the structured history it serializes). -/
structure GatewayReq where
  query : List HistoryItem
  uniqueClientId : String
  converslyWebId : String
  phoneNumber : String
  chatbotId : String
deriving DecidableEq

/-- Response of the Response Gateway; an absent `response` field is `""`
(both are falsy in the `responseData.success && responseData.response` test). -/
structure GatewayResp where
  success : Bool
  response : String
  citations : List String
deriving DecidableEq

/-- Arguments of one `sendWhatsAppMessage` call (the Delivery Dispatcher). -/
structure SendReq where
  phoneNumberId : String
  accessToken : String
  to_ : String
  message : String
deriving DecidableEq

/-- Result of `sendWhatsAppMessage`: the success shape may lack
`response.data.messages[0].id`; the failure shape carries only an error
string (errors are captured, never raised). -/
inductive SendResult where
  | ok (messageId : Option String)
  | err (error : String)
deriving DecidableEq

/-- Deterministic oracles for the two outbound HTTP collaborators. A thrown
axios error on the gateway POST (timeout, non-2xx) is the `Except.error`
case; `sendWhatsAppMessage` never throws (it catches internally). -/
structure Env where
  gateway : GatewayReq → Except String GatewayResp
  send : SendReq → SendResult

/-- Processing state threaded through the pipeline: the store, a clock for
`Date.now()` / SQL `NOW()` reads, a counter for `createId()`, and the log of
outbound calls. -/
structure ProcState where
  store : Store
  now : Nat
  nextId : Nat
  gatewayCalls : List GatewayReq
  sends : List SendReq
deriving DecidableEq

/-- Read the clock and advance it. -/
def tick (s : ProcState) : Nat × ProcState :=
  (s.now, { s with now := s.now + 1 })

/-- Model of `createId()` from `@paralleldrive/cuid2`: a fresh id. -/
def genId (s : ProcState) : String × ProcState :=
  ("cuid_" ++ toString s.nextId, { s with nextId := s.nextId + 1 })

/-! ## Message pipeline (src/services/webhook-handler.ts) -/

/-- The `switch (type)` projecting an inbound message to `messageContent`. -/
def projectContent (m : WAMessage) : String :=
  match m.type with
  | "text" => jsOr m.text_body ""
  | "image" => jsOr m.image_caption "[Image]"
  | "audio" => "[Voice message]"
  | "video" => jsOr m.video_caption "[Video]"
  | "document" => "[Document: " ++ jsOr m.document_filename "document" ++ "]"
  | "location" =>
      match m.location with
      | some (la, lo) => "[Location: " ++ toString la ++ ", " ++ toString lo ++ "]"
      | none => "[Location: undefined, undefined]"
  | "button" => jsOr m.button_text ""
  | "interactive" =>
      if m.interactive_type = some "button_reply" then
        jsOr m.interactive_button_reply_title ""
      else if m.interactive_type = some "list_reply" then
        jsOr m.interactive_list_reply_title ""
      else ""
  | t => "[Unsupported message type: " ++ t ++ "]"

/-- `contacts?.find(c => c.wa_id === from)?.profile?.name || 'Unknown'`. -/
def customerNameOf (contacts : List WContact) (from_ : String) : String :=
  jsOr ((contacts.find? (fun c => c.wa_id == from_)).map (fun c => c.name)) "Unknown"

/-- The contact get-or-create block: `SELECT id FROM whatsapp_contacts WHERE
chatbot_id = $1 AND phone_number = $2 LIMIT 1`; on miss, INSERT a row with
seeded metadata and a fresh `createId()`; on hit, UPDATE `display_name` and
`jsonb_set` of `last_seen_at` on the row with that id. Returns the contact id. -/
def upsertContact (account : Account) (from_ customerName tsIso messageId : String)
    (s : ProcState) : String × ProcState :=
  match s.store.contacts.find? (fun c =>
      c.chatbot_id == account.chatbot_id && c.phone_number == from_) with
  | none =>
      let (newContactId, s1) := genId s
      let meta : ContactMeta :=
        { wa_id := from_, profile_name := customerName,
          first_seen_at := tsIso, last_seen_at := tsIso,
          last_inbound_message_id := messageId,
          waba_id := account.waba_id,
          phone_number_id := account.phone_number_id,
          display_phone_number := account.phone_number }
      let newRow : Contact :=
        { id := newContactId, chatbot_id := account.chatbot_id,
          phone_number := from_, display_name := customerName,
          whatsapp_user_metadata := meta }
      (newContactId,
       { s1 with store := { s1.store with contacts := s1.store.contacts ++ [newRow] } })
  | some c =>
      let contacts' := s.store.contacts.map (fun c2 =>
        if c2.id == c.id then
          { c2 with display_name := customerName,
                    whatsapp_user_metadata :=
                      { c2.whatsapp_user_metadata with last_seen_at := tsIso } }
        else c2)
      (c.id, { s with store := { s.store with contacts := contacts' } })

/-- Comparison used by the SQL `ORDER BY created_at ASC`. -/
def byCreated (a b : MessageRow) : Prop :=
  a.created_at ≤ b.created_at

instance : DecidableRel byCreated := fun a b => Nat.decLe a.created_at b.created_at

instance : IsTotal MessageRow byCreated :=
  ⟨fun a b => Nat.le_total a.created_at b.created_at⟩

instance : IsTrans MessageRow byCreated :=
  ⟨fun _ _ _ hab hbc => Nat.le_trans hab hbc⟩

/-- Sort of message rows ascending by `created_at`
(models SQL `ORDER BY created_at ASC`). -/
def sortByCreatedAt (l : List MessageRow) : List MessageRow :=
  List.insertionSort byCreated l

/-- Row selection of the history query: `SELECT content, type FROM messages
WHERE chatbot_id = $1 AND unique_conv_id = $2 AND channel = 'WHATSAPP'
ORDER BY created_at ASC LIMIT limit`. -/
def fetchRecentHistorySelect (chatbotId convId : String) (limit : Nat)
    (msgs : List MessageRow) : List MessageRow :=
  (sortByCreatedAt (msgs.filter (fun r =>
    r.chatbot_id == chatbotId && r.unique_conv_id == convId &&
    r.channel == "WHATSAPP"))).take limit

/-- The history query followed by the `historyResult.rows.map` reduction to
`{role, content}` with role `"user"` for inbound rows, `"assistant"` otherwise. -/
def fetchRecentHistory (chatbotId convId : String) (limit : Nat)
    (msgs : List MessageRow) : List HistoryItem :=
  (fetchRecentHistorySelect chatbotId convId limit msgs).map (fun r =>
    { role := if r.type == "user" then "user" else "assistant", content := r.content })

/-- `SELECT id, api_key FROM chatbot WHERE id = $1 LIMIT 1`. -/
def findChatbot (chatbots : List Chatbot) (chatbotId : String) : Option Chatbot :=
  chatbots.find? (fun cb => cb.id == chatbotId)

/-- The inbound row INSERTed into the unified `messages` table for a given
contact id (`type = 'user'`, `created_at = $5 = timestamp`, no citations
column ⇒ `[]`). -/
def inboundRowOf (account : Account) (m : WAMessage) (contactId : String) :
    MessageRow :=
  let from_ := m.from_
  let tsIso := toISOString m.timestamp
  let uniqueConvId := "whatsapp_" ++ from_ ++ "_" ++ account.chatbot_id
  let dbMessageType :=
    if m.type = "text" ∨ m.type = "button" ∨ m.type = "interactive" then "text"
    else if m.type = "image" ∨ m.type = "video" ∨ m.type = "document" then m.type
    else "text"
  { chatbot_id := account.chatbot_id, channel := "WHATSAPP", type := "user",
    content := projectContent m, unique_conv_id := uniqueConvId,
    citations := [],
    channel_message_metadata :=
      { phoneNumber := from_, waMessageId := m.id, messageType := dbMessageType,
        timestamp := some tsIso, responseTimeMs := none,
        contactId := some contactId, status := none },
    created_at := m.timestamp * 1000 }

/-- Storage phase of `processIncomingMessage`: contact upsert followed by the
inbound-row INSERT. Returns the new state and the contact id used downstream. -/
def storePhase (account : Account) (m : WAMessage) (contacts : List WContact)
    (s : ProcState) : ProcState × String :=
  let from_ := m.from_
  let customerName := customerNameOf contacts from_
  let tsIso := toISOString m.timestamp
  let (contactId, s1) := upsertContact account from_ customerName tsIso m.id s
  let row : MessageRow := inboundRowOf account m contactId
  ({ s1 with store := { s1.store with messages := s1.store.messages ++ [row] } },
   contactId)

/-- Fixed apology text of the gateway-failure branch
(`responseData.success && responseData.response` falsy). -/
def apologyGatewayText : String :=
  "Sorry, I encountered an error processing your message. Please try again later."

/-- Fixed apology text of the catch-all error handler. -/
def apologyCatchText : String :=
  "Sorry, I encountered an error. Please try again later."

/-- The request body built for the gateway POST from the post-storage state:
the fetched history (`LIMIT 10`), the tenant-scoped unique client id
`"whatsapp_" + from + "_" + chatbotId`, and the bot's API key. -/
def gatewayRequestOf (account : Account) (m : WAMessage) (cb : Chatbot)
    (s : ProcState) : GatewayReq :=
  let from_ := m.from_
  let uniqueConvId := "whatsapp_" ++ from_ ++ "_" ++ account.chatbot_id
  let uniqueClientId := "whatsapp_" ++ from_ ++ "_" ++ account.chatbot_id
  { query := fetchRecentHistory account.chatbot_id uniqueConvId 10 s.store.messages,
    uniqueClientId := uniqueClientId,
    converslyWebId := cb.api_key.getD "", phoneNumber := from_,
    chatbotId := account.chatbot_id }

/-- Gateway phase of `processIncomingMessage`: history fetch, the POST to the
Response Gateway (a thrown transport error is the `Except.error` case, landing
in the catch-all), then either reply dispatch plus the assistant-row INSERT,
or the apology dispatch. -/
def gatewayPhase (env : Env) (account : Account) (m : WAMessage) (cb : Chatbot)
    (contactId : String) (s : ProcState) : ProcState :=
  let from_ := m.from_
  let uniqueConvId := "whatsapp_" ++ from_ ++ "_" ++ account.chatbot_id
  let req : GatewayReq := gatewayRequestOf account m cb s
  let (startTime, s1) := tick s
  let s2 := { s1 with gatewayCalls := s1.gatewayCalls ++ [req] }
  match env.gateway req with
  | Except.error _ =>
      -- axios threw (timeout / non-2xx): the catch-all sends the apology;
      -- a failure of that send is itself caught and only logged.
      let sendReq : SendReq :=
        { phoneNumberId := account.phone_number_id,
          accessToken := account.access_token, to_ := from_,
          message := apologyCatchText }
      { s2 with sends := s2.sends ++ [sendReq] }
  | Except.ok resp =>
      let (endTime, s3) := tick s2
      let responseTime := endTime - startTime
      if resp.success ∧ resp.response ≠ "" then
        let sendReq : SendReq :=
          { phoneNumberId := account.phone_number_id,
            accessToken := account.access_token, to_ := from_,
            message := resp.response }
        let sendResult := env.send sendReq
        let s4 := { s3 with sends := s3.sends ++ [sendReq] }
        -- `sendResult.messageId || `ai_${Date.now()}``: the `Date.now()`
        -- reading used by the fallback id is the tick below.
        let (t3, s5) := tick s4
        let finalMessageId :=
          match sendResult with
          | SendResult.ok mid => jsOr mid ("ai_" ++ toString t3)
          | SendResult.err _ => "ai_" ++ toString t3
        let (nowT, s6) := tick s5
        let row : MessageRow :=
          { chatbot_id := account.chatbot_id, channel := "WHATSAPP",
            type := "assistant", content := resp.response,
            unique_conv_id := uniqueConvId, citations := resp.citations,
            channel_message_metadata :=
              { phoneNumber := from_, waMessageId := finalMessageId,
                messageType := "text", timestamp := none,
                responseTimeMs := some responseTime,
                contactId := some contactId, status := none },
            created_at := nowT }
        { s6 with store := { s6.store with messages := s6.store.messages ++ [row] } }
      else
        let sendReq : SendReq :=
          { phoneNumberId := account.phone_number_id,
            accessToken := account.access_token, to_ := from_,
            message := apologyGatewayText }
        { s3 with sends := s3.sends ++ [sendReq] }

/-- Embedding of `processIncomingMessage(account, message, contacts, pool)`:
content projection, the type and empty-content guards, the storage phase, the
chatbot/API-key lookup guard, then the gateway phase. -/
def processIncomingMessage (env : Env) (account : Account) (m : WAMessage)
    (contacts : List WContact) (s : ProcState) : ProcState :=
  let type := m.type
  let messageContent := projectContent m
  if type ≠ "text" ∧ type ≠ "button" ∧ type ≠ "interactive" then s
  else if messageContent = "" then s
  else
    let (s1, contactId) := storePhase account m contacts s
    match findChatbot s1.store.chatbots account.chatbot_id with
    | none => s1
    | some cb =>
        if ¬ jsTruthy cb.api_key then s1
        else gatewayPhase env account m cb contactId s1

/-- Embedding of `processMessageStatus(account, status, pool)`: `UPDATE
messages SET channel_message_metadata = jsonb_set(metadata, '\x7bstatus\x7d',
newStatus) WHERE channel = 'WHATSAPP' AND metadata->>'waMessageId' = $2`. A
persistence error is caught and logged (the model's update is total). The
`account` argument is only logged by the source. -/
def processMessageStatus (_account : Account) (statusEv : StatusEvent)
    (s : ProcState) : ProcState :=
  let msgs := s.store.messages.map (fun r =>
    if r.channel = "WHATSAPP" ∧
        r.channel_message_metadata.waMessageId = statusEv.id then
      { r with channel_message_metadata :=
          { r.channel_message_metadata with status := some statusEv.status } }
    else r)
  { s with store := { s.store with messages := msgs } }

/-- Per-account body of the tenant fan-out: for the `messages` field, process
every message then every status sequentially; the template-status field and
unrecognized fields only log. -/
def processChangeForAccount (env : Env) (change : Change) (account : Account)
    (s : ProcState) : ProcState :=
  if change.field = "messages" then
    let s1 := change.messages.foldl
      (fun st msg => processIncomingMessage env account msg change.contacts st) s
    change.statuses.foldl (fun st ev => processMessageStatus account ev st) s1
  else if change.field = "message_template_status_update" then s
  else s

/-- Per-change body of `handleWebhookMessage`: extract the routing key, select
all active accounts matching it (`WHERE phone_number_id = $1 AND status =
'active'`), skip on zero rows, and process each account in row order. -/
def processChange (env : Env) (change : Change) (s : ProcState) : ProcState :=
  match change.phone_number_id with
  | none => s
  | some k =>
      let accountRows := s.store.accounts.filter (fun a =>
        a.phone_number_id == k && a.status == "active")
      if accountRows.isEmpty then s
      else accountRows.foldl
        (fun st a => processChangeForAccount env change a st) s

/-- Embedding of `handleWebhookMessage(payload)` on the database-backed path
(the env-variable fallback taken when no pool exists is outside the store
model): iterate `payload.entry[].changes[]` sequentially. -/
def handleWebhookMessage (env : Env) (payload : Payload) (s : ProcState) : ProcState :=
  payload.entry.foldl
    (fun st e => e.changes.foldl (fun st2 ch => processChange env ch st2) st) s

/-! ## HTTP POST /webhook handler (src/index.ts) -/

/-- Response emitted by the POST /webhook route (status plus the JSON body
fields the route writes). -/
structure HttpResponse where
  status : Nat
  success : Bool
  message : Option String
  error : Option String
deriving DecidableEq

/-- Tail of the POST handler after the signature stage: the provider-tag
check, then the fire-and-forget `handleWebhookMessage` with an immediate 200.
The pair holds the response as emitted and the store as it stands after the
background task completes. -/
def postWebhookAfterSig (env : Env) (payload : Payload) (s : ProcState) :
    HttpResponse × ProcState :=
  if payload.object ≠ "whatsapp_business_account" then
    ({ status := 200, success := true,
       message := some "Not a WhatsApp webhook event", error := none }, s)
  else
    ({ status := 200, success := true,
       message := some "Webhook received", error := none },
     handleWebhookMessage env payload s)

/-- Embedding of `app.post('/webhook')`: if an `x-hub-signature-256` header
and a configured `FACEBOOK_APP_SECRET` are both present (truthy), verify the
captured raw body; an invalid signature is answered 401 with
`success:false, error:"Invalid signature"` and nothing is processed.
Otherwise the handler proceeds to the provider-tag check. -/
def postWebhook (env : Env) (hmacHex : String → String → String)
    (appSecret signature : Option String) (rawBody : String)
    (payload : Payload) (s : ProcState) : HttpResponse × ProcState :=
  if jsTruthy signature ∧ jsTruthy appSecret then
    if ¬ verifyWebhookSignature hmacHex rawBody (signature.getD "") (appSecret.getD "") then
      ({ status := 401, success := false, message := none,
         error := some "Invalid signature" }, s)
    else postWebhookAfterSig env payload s
  else postWebhookAfterSig env payload s

/-! ## Observation helpers and concrete fixtures -/

/-- Number of inbound (`type = 'user'`) message rows owned by a chatbot. -/
def userRowCount (chatbotId : String) (msgs : List MessageRow) : Nat :=
  (msgs.filter (fun r => r.type == "user" && r.chatbot_id == chatbotId)).length

/-- The contact rows stored for a (botId, phoneNumber) pair. -/
def contactRowsFor (chatbotId phone : String) (contacts : List Contact) : List Contact :=
  contacts.filter (fun c => c.chatbot_id == chatbotId && c.phone_number == phone)

/-- Per-call varying arguments of one contact upsert (the pair is fixed). -/
structure UpsertCall where
  customerName : String
  ts : Nat
  messageId : String
deriving DecidableEq

/-- Iterate `upsertContact` for a fixed (account, phoneNumber) pair over a
sequence of inbound events, collecting the returned contact ids. -/
def runUpserts (account : Account) (from_ : String) :
    List UpsertCall → ProcState → List String × ProcState
  | [], s => ([], s)
  | c :: cs, s =>
      let (cid, s') :=
        upsertContact account from_ c.customerName (toISOString c.ts) c.messageId s
      let (ids, s'') := runUpserts account from_ cs s'
      (cid :: ids, s'')

/-- The `last_seen_at` value after replaying a call sequence over a base
value: each call overwrites it with its own timestamp. -/
def lastSeenAfter (base : String) : List UpsertCall → String
  | [] => base
  | c :: cs => lastSeenAfter (toISOString c.ts) cs

/-- Fixture tenant 1. -/
def acct1 : Account :=
  { id := "acc1", chatbot_id := "bot1", phone_number_id := "pn1",
    access_token := "tok1", waba_id := "waba1", phone_number := "15550001",
    status := "active" }

/-- Fixture tenant 2, sharing the routing key of tenant 1. -/
def acct2 : Account :=
  { id := "acc2", chatbot_id := "bot2", phone_number_id := "pn1",
    access_token := "tok2", waba_id := "waba2", phone_number := "15550002",
    status := "active" }

/-- Fixture chatbot rows with usable API keys. -/
def cb1 : Chatbot := { id := "bot1", api_key := some "key1" }

def cb2 : Chatbot := { id := "bot2", api_key := some "key2" }

/-- Fixture single-tenant store with no conversation state yet. -/
def store1 : Store :=
  { accounts := [acct1], contacts := [], chatbots := [cb1], messages := [] }

/-- Fixture initial processing state over `store1`. -/
def s0 : ProcState :=
  { store := store1, now := 100, nextId := 0, gatewayCalls := [], sends := [] }

/-- Fixture two-tenant store: both tenants are active on routing key `pn1`. -/
def store2 : Store :=
  { accounts := [acct1, acct2], contacts := [], chatbots := [cb1, cb2],
    messages := [] }

/-- Fixture initial processing state over `store2`. -/
def s2init : ProcState :=
  { store := store2, now := 100, nextId := 0, gatewayCalls := [], sends := [] }

/-- Fixture inbound text message. -/
def textMsg : WAMessage :=
  { from_ := "15557777", id := "wamid.in1", timestamp := 1700000000,
    type := "text", text_body := some "hi there", image_caption := none,
    video_caption := none, document_filename := none, location := none,
    button_text := none, interactive_type := none,
    interactive_button_reply_title := none,
    interactive_list_reply_title := none }

/-- Fixture inbound audio message. -/
def audioMsg : WAMessage :=
  { textMsg with type := "audio", text_body := none }

/-- Oracle environment whose gateway succeeds with a reply and whose send
succeeds with a provider message id. -/
def envOk : Env :=
  { gateway := fun _ => Except.ok { success := true, response := "Hello!", citations := [] },
    send := fun _ => SendResult.ok (some "wamid.out1") }

/-- Oracle environment whose gateway completes with `success:false`. -/
def envFail : Env :=
  { gateway := fun _ => Except.ok { success := false, response := "", citations := [] },
    send := fun _ => SendResult.ok (some "wamid.out1") }

/-- Oracle environment whose gateway succeeds but whose send fails. -/
def envSendFail : Env :=
  { gateway := fun _ => Except.ok { success := true, response := "Hello!", citations := [] },
    send := fun _ => SendResult.err "network down" }

/-- Oracle environment whose gateway reports success with an empty reply
(`responseData.response` falsy). -/
def envEmptyResp : Env :=
  { gateway := fun _ => Except.ok { success := true, response := "", citations := [] },
    send := fun _ => SendResult.ok (some "wamid.out1") }

/-- Fixture non-WhatsApp envelope. -/
def pagePayload : Payload := { object := "page", entry := [] }

/-- Fixture stored message row referencing provider id `wamid.X`, older. -/
def msgRowA : MessageRow :=
  { chatbot_id := "bot1", channel := "WHATSAPP", type := "assistant",
    content := "a", unique_conv_id := "conv", citations := [],
    channel_message_metadata :=
      { phoneNumber := "15557777", waMessageId := "wamid.X",
        messageType := "text", timestamp := none, responseTimeMs := none,
        contactId := none, status := none },
    created_at := 1 }

/-- Fixture stored message row referencing the same provider id, more recent. -/
def msgRowB : MessageRow :=
  { msgRowA with content := "b", created_at := 2 }

/-- Fixture state holding two rows that both reference `wamid.X`. -/
def s6fix : ProcState :=
  { store := { accounts := [], contacts := [], chatbots := [],
               messages := [msgRowA, msgRowB] },
    now := 0, nextId := 0, gatewayCalls := [], sends := [] }

/-- Fixture delivery-status event for `wamid.X`. -/
def ev6 : StatusEvent :=
  { id := "wamid.X", status := "delivered", recipient_id := "15557777" }

/-- Fixture delivery-status event whose provider id matches no stored row. -/
def ev6b : StatusEvent :=
  { id := "wamid.none", status := "read", recipient_id := "15557777" }

/-- A well-formed envelope with one entry, one `messages`-field change for
routing key `k`, and a single inbound message. -/
def singleMessagePayload (eid k : String) (cs : List WContact) (m : WAMessage) :
    Payload :=
  { object := "whatsapp_business_account",
    entry := [{ id := eid,
                changes := [{ field := "messages", phone_number_id := some k,
                              contacts := cs, messages := [m], statuses := [] }] }] }

/-! ## Theorems -/

/-- C2: for every rawBody and secret (and every HMAC-SHA256-hex function the
verifier is built over), `verifyWebhookSignature` returns `true` on the
signature `"sha256=" ++ hmacHex secret rawBody` — the verifier round-trips
against the reference HMAC construction. -/
theorem C2_verify_roundtrip (hmacHex : String → String → String)
    (rawBody secret : String) :
    verifyWebhookSignature hmacHex rawBody
      ("sha256=" ++ hmacHex secret rawBody) secret = true := by
  simp [verifyWebhookSignature, timingSafeEqual]

/-- Agreement of the instrumented verifier with the source verifier. -/
theorem verifyTraced_fst (hmacHex : String → String → String)
    (rawBody signature secret : String) :
    (verifyWebhookSignatureTraced hmacHex rawBody signature secret).1 =
      verifyWebhookSignature hmacHex rawBody signature secret := by
  unfold verifyWebhookSignature verifyWebhookSignatureTraced
  by_cases h : (bufferFrom signature).length =
      (bufferFrom ("sha256=" ++ hmacHex secret rawBody)).length
  · simp [h]
  · simp [h]

/-- C3: `verifyWebhookSignature` is a total Bool-valued function (the
embedding has no failure case, matching the catch-all that returns `false`),
and when the provided signature's byte length differs from the expected
digest string's byte length it returns `false`, with the instrumented copy
showing the constant-time comparison was never performed on that run. -/
theorem C3_verify_length_mismatch (hmacHex : String → String → String)
    (rawBody signature secret : String)
    (h : (bufferFrom signature).length ≠
      (bufferFrom ("sha256=" ++ hmacHex secret rawBody)).length) :
    verifyWebhookSignature hmacHex rawBody signature secret = false ∧
    verifyWebhookSignatureTraced hmacHex rawBody signature secret = (false, false) := by
  unfold verifyWebhookSignature verifyWebhookSignatureTraced
  simp [h]

/-- C3 witness: a one-byte signature against a nine-byte expected digest
string short-circuits to `false` without the constant-time compare. -/
theorem C3_verify_length_mismatch_witness :
    ((bufferFrom "x").length ≠
      (bufferFrom ("sha256=" ++ (fun _ _ => "aa") "k" "b")).length) ∧
    verifyWebhookSignature (fun _ _ => "aa") "b" "x" "k" = false ∧
    verifyWebhookSignatureTraced (fun _ _ => "aa") "b" "x" "k" = (false, false) :=
  ⟨by decide,
   (C3_verify_length_mismatch (fun _ _ => "aa") "b" "x" "k" (by decide)).1,
   (C3_verify_length_mismatch (fun _ _ => "aa") "b" "x" "k" (by decide)).2⟩

/-- The contact upsert touches only the contact table (and the id counter). -/
theorem upsertContact_preserves (account : Account) (f n t mid : String)
    (s : ProcState) :
    (upsertContact account f n t mid s).2.store.messages = s.store.messages ∧
    (upsertContact account f n t mid s).2.store.chatbots = s.store.chatbots ∧
    (upsertContact account f n t mid s).2.store.accounts = s.store.accounts ∧
    (upsertContact account f n t mid s).2.gatewayCalls = s.gatewayCalls ∧
    (upsertContact account f n t mid s).2.sends = s.sends := by
  rcases h : s.store.contacts.find? (fun c =>
      c.chatbot_id == account.chatbot_id && c.phone_number == f) with _ | c <;>
    simp [upsertContact, h, genId]

/-- Projections of the inbound row: direction and owner. -/
theorem inboundRowOf_fields (account : Account) (m : WAMessage) (cid : String) :
    (inboundRowOf account m cid).type = "user" ∧
    (inboundRowOf account m cid).chatbot_id = account.chatbot_id :=
  ⟨rfl, rfl⟩

/-- The storage phase appends exactly the inbound row for the upserted
contact and leaves every other observable unchanged. -/
theorem storePhase_effects (account : Account) (m : WAMessage)
    (cs : List WContact) (s : ProcState) :
    (storePhase account m cs s).1.store.messages =
      s.store.messages ++ [inboundRowOf account m (storePhase account m cs s).2] ∧
    (storePhase account m cs s).1.store.chatbots = s.store.chatbots ∧
    (storePhase account m cs s).1.store.accounts = s.store.accounts ∧
    (storePhase account m cs s).1.gatewayCalls = s.gatewayCalls ∧
    (storePhase account m cs s).1.sends = s.sends := by
  have hp := upsertContact_preserves account m.from_ (customerNameOf cs m.from_)
    (toISOString m.timestamp) m.id s
  rcases h : upsertContact account m.from_ (customerNameOf cs m.from_)
      (toISOString m.timestamp) m.id s with ⟨cid, s1⟩
  rw [h] at hp
  dsimp only at hp
  simp only [storePhase, h]
  exact ⟨by simp [hp.1], by simp [hp.2.1], by simp [hp.2.2.1],
    by simp [hp.2.2.2.1], by simp [hp.2.2.2.2]⟩

/-- The gateway phase logs exactly one Response Gateway call, built by
`gatewayRequestOf` from its entry state. -/
theorem gatewayPhase_calls (env : Env) (account : Account) (m : WAMessage)
    (cb : Chatbot) (cid : String) (s : ProcState) :
    (gatewayPhase env account m cb cid s).gatewayCalls =
      s.gatewayCalls ++ [gatewayRequestOf account m cb s] := by
  simp only [gatewayPhase]
  rcases hg : env.gateway (gatewayRequestOf account m cb s) with e | resp
  · simp [hg, tick]
  · by_cases hc : (resp.success = true ∧ resp.response ≠ "")
    · simp [hg, tick, hc]
    · simp [hg, tick, hc]

/-- The gateway phase never adds inbound (`user`) rows: every row it may
append is an `assistant` row, so per-chatbot user-row counts are unchanged. -/
theorem gatewayPhase_userRowCount (env : Env) (account : Account)
    (m : WAMessage) (cb : Chatbot) (cid : String) (s : ProcState)
    (cid' : String) :
    userRowCount cid' (gatewayPhase env account m cb cid s).store.messages =
      userRowCount cid' s.store.messages := by
  simp only [gatewayPhase]
  rcases hg : env.gateway (gatewayRequestOf account m cb s) with e | resp
  · simp [hg, tick]
  · by_cases hc : (resp.success = true ∧ resp.response ≠ "")
    · simp [hg, tick, hc, userRowCount, List.filter_append]
    · simp [hg, tick, hc]

/-- The gateway phase leaves accounts, chatbots and contacts unchanged. -/
theorem gatewayPhase_store_rest (env : Env) (account : Account)
    (m : WAMessage) (cb : Chatbot) (cid : String) (s : ProcState) :
    (gatewayPhase env account m cb cid s).store.chatbots = s.store.chatbots ∧
    (gatewayPhase env account m cb cid s).store.accounts = s.store.accounts ∧
    (gatewayPhase env account m cb cid s).store.contacts = s.store.contacts := by
  simp only [gatewayPhase]
  rcases hg : env.gateway (gatewayRequestOf account m cb s) with e | resp
  · simp [hg, tick]
  · by_cases hc : (resp.success = true ∧ resp.response ≠ "")
    · simp [hg, tick, hc]
    · simp [hg, tick, hc]

/-- On a gateway response with `success:false`, the gateway phase appends no
message row and dispatches exactly the fixed apology text. -/
theorem gatewayPhase_fail (env : Env) (account : Account) (m : WAMessage)
    (cb : Chatbot) (cid : String) (s : ProcState) (resp : GatewayResp)
    (hg : env.gateway (gatewayRequestOf account m cb s) = Except.ok resp)
    (hf : resp.success = false) :
    (gatewayPhase env account m cb cid s).store.messages = s.store.messages ∧
    (gatewayPhase env account m cb cid s).sends = s.sends ++
      [{ phoneNumberId := account.phone_number_id,
         accessToken := account.access_token, to_ := m.from_,
         message := apologyGatewayText }] := by
  simp only [gatewayPhase, hg]
  simp [tick, hf]

/-- On a gateway response with `success:true` and a nonempty reply, the
gateway phase makes exactly one dispatch (the reply itself) and appends one
assistant row regardless of the dispatch outcome; when the dispatch fails the
row's metadata carries a synthesized `ai_<timestamp>` id. -/
theorem gatewayPhase_ok (env : Env) (account : Account) (m : WAMessage)
    (cb : Chatbot) (cid : String) (s : ProcState) (resp : GatewayResp)
    (hg : env.gateway (gatewayRequestOf account m cb s) = Except.ok resp)
    (hs : resp.success = true) (hr : resp.response ≠ "") :
    ∃ assistantRow : MessageRow,
      (gatewayPhase env account m cb cid s).store.messages =
        s.store.messages ++ [assistantRow] ∧
      assistantRow.type = "assistant" ∧
      assistantRow.content = resp.response ∧
      (gatewayPhase env account m cb cid s).sends = s.sends ++
        [{ phoneNumberId := account.phone_number_id,
           accessToken := account.access_token, to_ := m.from_,
           message := resp.response }] ∧
      (∀ e, env.send
          { phoneNumberId := account.phone_number_id,
            accessToken := account.access_token, to_ := m.from_,
            message := resp.response } = SendResult.err e →
        ∃ t : Nat, assistantRow.channel_message_metadata.waMessageId =
          "ai_" ++ toString t) := by
  simp only [gatewayPhase, hg, tick]
  rw [if_pos ⟨hs, hr⟩]
  refine ⟨_, rfl, rfl, rfl, rfl, ?_⟩
  intro e he
  simp only [he]
  exact ⟨_, rfl⟩

/-- Under the happy-path guards (AI-eligible type, nonempty content, chatbot
row present with a usable API key), `processIncomingMessage` is the gateway
phase run on the post-storage state. -/
theorem processIncomingMessage_eq_gatewayPhase (env : Env) (account : Account)
    (m : WAMessage) (cs : List WContact) (s : ProcState) (cb : Chatbot)
    (ht : m.type = "text" ∨ m.type = "button" ∨ m.type = "interactive")
    (hc : projectContent m ≠ "")
    (hcb : findChatbot s.store.chatbots account.chatbot_id = some cb)
    (hkey : jsTruthy cb.api_key = true) :
    processIncomingMessage env account m cs s =
      gatewayPhase env account m cb (storePhase account m cs s).2
        (storePhase account m cs s).1 := by
  have hcond : ¬(m.type ≠ "text" ∧ m.type ≠ "button" ∧ m.type ≠ "interactive") := by
    rcases ht with h | h | h <;> simp [h]
  have hpres := (storePhase_effects account m cs s).2.1
  rcases hsp : storePhase account m cs s with ⟨s1, cid⟩
  rw [hsp] at hpres
  dsimp only at hpres
  have hcb1 : findChatbot s1.store.chatbots account.chatbot_id = some cb := by
    rw [hpres]; exact hcb
  simp only [processIncomingMessage]
  rw [if_neg hcond, if_neg hc]
  simp only [hsp, hcb1, hkey]
  simp

/-- C4: a message whose type is not `text`, `button` or `interactive`
(e.g. `audio`) makes `processIncomingMessage` return before the try block:
the state is unchanged, so in particular no Response Gateway call is issued
(no POST to `/response`) and no dispatch occurs for that message. -/
theorem C4_non_ai_types_no_gateway (env : Env) (account : Account)
    (m : WAMessage) (contacts : List WContact) (s : ProcState)
    (h : m.type ≠ "text" ∧ m.type ≠ "button" ∧ m.type ≠ "interactive") :
    processIncomingMessage env account m contacts s = s := by
  simp only [processIncomingMessage]
  rw [if_pos h]

/-- C4 witness: a concrete audio message leaves the processing state of a
provisioned tenant untouched. -/
theorem C4_non_ai_types_no_gateway_witness :
    (audioMsg.type ≠ "text" ∧ audioMsg.type ≠ "button" ∧
      audioMsg.type ≠ "interactive") ∧
    processIncomingMessage envOk acct1 audioMsg [] s0 = s0 :=
  ⟨by decide, C4_non_ai_types_no_gateway envOk acct1 audioMsg [] s0 (by decide)⟩

/-- C5: when the Response Gateway call completes with `success:false`, the
Delivery Dispatcher is invoked exactly once for that message, carrying the
fixed apology text, and the only row appended for the message is the inbound
`user` row — no assistant row with AI content is written. -/
theorem C5_gateway_failure_apology (env : Env) (account : Account)
    (m : WAMessage) (contacts : List WContact) (s : ProcState)
    (cb : Chatbot) (resp : GatewayResp)
    (ht : m.type = "text" ∨ m.type = "button" ∨ m.type = "interactive")
    (hc : projectContent m ≠ "")
    (hcb : findChatbot s.store.chatbots account.chatbot_id = some cb)
    (hkey : jsTruthy cb.api_key = true)
    (hg : env.gateway (gatewayRequestOf account m cb
        (storePhase account m contacts s).1) = Except.ok resp)
    (hf : resp.success = false) :
    (processIncomingMessage env account m contacts s).store.messages =
      s.store.messages ++ [inboundRowOf account m (storePhase account m contacts s).2] ∧
    (inboundRowOf account m (storePhase account m contacts s).2).type = "user" ∧
    (processIncomingMessage env account m contacts s).sends = s.sends ++
      [{ phoneNumberId := account.phone_number_id,
         accessToken := account.access_token, to_ := m.from_,
         message := apologyGatewayText }] := by
  have heq := processIncomingMessage_eq_gatewayPhase env account m contacts s cb
    ht hc hcb hkey
  have hfail := gatewayPhase_fail env account m cb
    (storePhase account m contacts s).2 (storePhase account m contacts s).1 resp hg hf
  have hst := storePhase_effects account m contacts s
  rw [heq]
  exact ⟨by rw [hfail.1, hst.1], rfl, by rw [hfail.2, hst.2.2.2.2]⟩

/-- C5 witness: a concrete text message against a gateway that replies
`success:false` yields exactly one apology dispatch and only the inbound row. -/
theorem C5_gateway_failure_apology_witness :
    (processIncomingMessage envFail acct1 textMsg [] s0).store.messages =
      s0.store.messages ++
        [inboundRowOf acct1 textMsg (storePhase acct1 textMsg [] s0).2] ∧
    (inboundRowOf acct1 textMsg (storePhase acct1 textMsg [] s0).2).type = "user" ∧
    (processIncomingMessage envFail acct1 textMsg [] s0).sends = s0.sends ++
      [{ phoneNumberId := acct1.phone_number_id,
         accessToken := acct1.access_token, to_ := textMsg.from_,
         message := apologyGatewayText }] :=
  C5_gateway_failure_apology envFail acct1 textMsg [] s0 cb1
    { success := false, response := "", citations := [] }
    (Or.inl rfl) (by decide) (by decide) (by decide) rfl rfl

/-- C10 counterexample: the source guards the success branch with
`responseData.success && responseData.response`, so a gateway response with
`success:true` but an empty (falsy) reply text takes the failure branch:
no assistant row is appended and the apology is dispatched — contradicting
the claim for a gateway return with `success:true`. -/
theorem C10_counterexample :
    envEmptyResp.gateway (gatewayRequestOf acct1 textMsg cb1
        (storePhase acct1 textMsg [] s0).1) =
      Except.ok { success := true, response := "", citations := [] } ∧
    ((processIncomingMessage envEmptyResp acct1 textMsg [] s0).store.messages.filter
        (fun r => r.type == "assistant")) = [] ∧
    (processIncomingMessage envEmptyResp acct1 textMsg [] s0).sends =
      [{ phoneNumberId := "pn1", accessToken := "tok1", to_ := "15557777",
         message := apologyGatewayText }] :=
  ⟨rfl, by decide, by decide⟩

/-- C10 (amended: gateway returns `success:true` AND a nonempty reply text):
the assistant row is appended unconditionally after the Delivery Dispatcher
send attempt, regardless of the send outcome; on send failure its metadata
carries an `ai_<timestamp>` fallback id, and the single dispatched message is
the reply itself — no apology is sent for the failed send. -/
theorem C10_assistant_row_after_send (env : Env) (account : Account)
    (m : WAMessage) (contacts : List WContact) (s : ProcState)
    (cb : Chatbot) (resp : GatewayResp)
    (ht : m.type = "text" ∨ m.type = "button" ∨ m.type = "interactive")
    (hc : projectContent m ≠ "")
    (hcb : findChatbot s.store.chatbots account.chatbot_id = some cb)
    (hkey : jsTruthy cb.api_key = true)
    (hg : env.gateway (gatewayRequestOf account m cb
        (storePhase account m contacts s).1) = Except.ok resp)
    (hs : resp.success = true) (hr : resp.response ≠ "") :
    ∃ assistantRow : MessageRow,
      (processIncomingMessage env account m contacts s).store.messages =
        s.store.messages ++
          [inboundRowOf account m (storePhase account m contacts s).2, assistantRow] ∧
      assistantRow.type = "assistant" ∧
      assistantRow.content = resp.response ∧
      (processIncomingMessage env account m contacts s).sends = s.sends ++
        [{ phoneNumberId := account.phone_number_id,
           accessToken := account.access_token, to_ := m.from_,
           message := resp.response }] ∧
      (∀ e, env.send
          { phoneNumberId := account.phone_number_id,
            accessToken := account.access_token, to_ := m.from_,
            message := resp.response } = SendResult.err e →
        ∃ t : Nat, assistantRow.channel_message_metadata.waMessageId =
          "ai_" ++ toString t) := by
  have heq := processIncomingMessage_eq_gatewayPhase env account m contacts s cb
    ht hc hcb hkey
  obtain ⟨row, hmsg, htype, hcontent, hsends, hfallback⟩ :=
    gatewayPhase_ok env account m cb (storePhase account m contacts s).2
      (storePhase account m contacts s).1 resp hg hs hr
  have hst := storePhase_effects account m contacts s
  refine ⟨row, ?_, htype, hcontent, ?_, hfallback⟩
  · rw [heq, hmsg, hst.1]
    simp
  · rw [heq, hsends, hst.2.2.2.2]

/-- C10 witness: with a failing dispatcher, the assistant row is still
appended and carries an `ai_<timestamp>` id. -/
theorem C10_assistant_row_after_send_witness :
    ∃ assistantRow : MessageRow,
      (processIncomingMessage envSendFail acct1 textMsg [] s0).store.messages =
        s0.store.messages ++
          [inboundRowOf acct1 textMsg (storePhase acct1 textMsg [] s0).2,
           assistantRow] ∧
      assistantRow.type = "assistant" ∧
      assistantRow.content = "Hello!" ∧
      (processIncomingMessage envSendFail acct1 textMsg [] s0).sends =
        s0.sends ++
          [{ phoneNumberId := acct1.phone_number_id,
             accessToken := acct1.access_token, to_ := textMsg.from_,
             message := "Hello!" }] ∧
      (∀ e, envSendFail.send
          { phoneNumberId := acct1.phone_number_id,
            accessToken := acct1.access_token, to_ := textMsg.from_,
            message := "Hello!" } = SendResult.err e →
        ∃ t : Nat, assistantRow.channel_message_metadata.waMessageId =
          "ai_" ++ toString t) :=
  C10_assistant_row_after_send envSendFail acct1 textMsg [] s0 cb1
    { success := true, response := "Hello!", citations := [] }
    (Or.inl rfl) (by decide) (by decide) (by decide) rfl rfl (by decide)

/-- Happy-path summary of one `processIncomingMessage` run: exactly one
Response Gateway call tagged with the account's chatbot, exactly one new
inbound (`user`) row for that chatbot, no user-row change for any other
chatbot, and accounts/chatbots untouched. -/
theorem processIncomingMessage_happy (env : Env) (account : Account)
    (m : WAMessage) (cs : List WContact) (s : ProcState) (cb : Chatbot)
    (ht : m.type = "text" ∨ m.type = "button" ∨ m.type = "interactive")
    (hc : projectContent m ≠ "")
    (hcb : findChatbot s.store.chatbots account.chatbot_id = some cb)
    (hkey : jsTruthy cb.api_key = true) :
    ∃ req : GatewayReq,
      (processIncomingMessage env account m cs s).gatewayCalls =
        s.gatewayCalls ++ [req] ∧
      req.chatbotId = account.chatbot_id ∧
      userRowCount account.chatbot_id
          (processIncomingMessage env account m cs s).store.messages =
        userRowCount account.chatbot_id s.store.messages + 1 ∧
      (∀ cid', cid' ≠ account.chatbot_id →
        userRowCount cid' (processIncomingMessage env account m cs s).store.messages =
          userRowCount cid' s.store.messages) ∧
      (processIncomingMessage env account m cs s).store.chatbots = s.store.chatbots ∧
      (processIncomingMessage env account m cs s).store.accounts = s.store.accounts := by
  have heq := processIncomingMessage_eq_gatewayPhase env account m cs s cb
    ht hc hcb hkey
  have hst := storePhase_effects account m cs s
  have hrest := gatewayPhase_store_rest env account m cb
    (storePhase account m cs s).2 (storePhase account m cs s).1
  refine ⟨gatewayRequestOf account m cb (storePhase account m cs s).1,
    ?_, by simp [gatewayRequestOf], ?_, ?_, ?_, ?_⟩
  · rw [heq, gatewayPhase_calls, hst.2.2.2.1]
  · rw [heq, gatewayPhase_userRowCount, hst.1]
    simp [userRowCount, List.filter_append, inboundRowOf]
  · intro cid' hne
    rw [heq, gatewayPhase_userRowCount, hst.1]
    simp [userRowCount, List.filter_append, inboundRowOf, Ne.symm hne]
  · rw [heq, hrest.1, hst.2.1]
  · rw [heq, hrest.2.1, hst.2.2.1]

/-- C1: an inbound text message on a routing key matched by two active tenant
rows is processed independently once per tenant: the webhook handler logs one
Response Gateway call per tenant (tagged with each tenant's chatbot) and
appends one inbound message row per tenant's chatbot. -/
theorem C1_two_tenant_fanout (env : Env) (eid k : String) (m : WAMessage)
    (cs : List WContact) (a1 a2 : Account) (s : ProcState)
    (cba : Chatbot) (cbb : Chatbot)
    (ht : m.type = "text") (hc : projectContent m ≠ "")
    (hacc : s.store.accounts.filter (fun a =>
      a.phone_number_id == k && a.status == "active") = [a1, a2])
    (hne : a1.chatbot_id ≠ a2.chatbot_id)
    (hcb1 : findChatbot s.store.chatbots a1.chatbot_id = some cba)
    (hk1 : jsTruthy cba.api_key = true)
    (hcb2 : findChatbot s.store.chatbots a2.chatbot_id = some cbb)
    (hk2 : jsTruthy cbb.api_key = true) :
    ∃ r1 r2 : GatewayReq,
      (handleWebhookMessage env (singleMessagePayload eid k cs m) s).gatewayCalls =
        s.gatewayCalls ++ [r1, r2] ∧
      r1.chatbotId = a1.chatbot_id ∧ r2.chatbotId = a2.chatbot_id ∧
      userRowCount a1.chatbot_id
          (handleWebhookMessage env (singleMessagePayload eid k cs m) s).store.messages =
        userRowCount a1.chatbot_id s.store.messages + 1 ∧
      userRowCount a2.chatbot_id
          (handleWebhookMessage env (singleMessagePayload eid k cs m) s).store.messages =
        userRowCount a2.chatbot_id s.store.messages + 1 := by
  have hred : handleWebhookMessage env (singleMessagePayload eid k cs m) s =
      processIncomingMessage env a2 m cs (processIncomingMessage env a1 m cs s) := by
    unfold handleWebhookMessage singleMessagePayload
    simp only [List.foldl]
    unfold processChange
    dsimp only
    rw [hacc]
    simp [processChangeForAccount]
  obtain ⟨r1, hr1calls, hr1cid, hr1count, hr1other, hr1cb, _⟩ :=
    processIncomingMessage_happy env a1 m cs s cba (Or.inl ht) hc hcb1 hk1
  obtain ⟨r2, hr2calls, hr2cid, hr2count, hr2other, _, _⟩ :=
    processIncomingMessage_happy env a2 m cs
      (processIncomingMessage env a1 m cs s) cbb (Or.inl ht) hc
      (by rw [hr1cb]; exact hcb2) hk2
  refine ⟨r1, r2, ?_, hr1cid, hr2cid, ?_, ?_⟩
  · rw [hred, hr2calls, hr1calls]
    simp
  · rw [hred, hr2other a1.chatbot_id hne, hr1count]
  · rw [hred, hr2count, hr1other a2.chatbot_id (Ne.symm hne)]

/-- C1 witness: with two provisioned tenants sharing routing key `pn1`, one
inbound text produces one gateway call and one inbound row per tenant. -/
theorem C1_two_tenant_fanout_witness :
    ∃ r1 r2 : GatewayReq,
      (handleWebhookMessage envOk
          (singleMessagePayload "entry1" "pn1" [] textMsg) s2init).gatewayCalls =
        s2init.gatewayCalls ++ [r1, r2] ∧
      r1.chatbotId = acct1.chatbot_id ∧ r2.chatbotId = acct2.chatbot_id ∧
      userRowCount acct1.chatbot_id
          (handleWebhookMessage envOk
            (singleMessagePayload "entry1" "pn1" [] textMsg) s2init).store.messages =
        userRowCount acct1.chatbot_id s2init.store.messages + 1 ∧
      userRowCount acct2.chatbot_id
          (handleWebhookMessage envOk
            (singleMessagePayload "entry1" "pn1" [] textMsg) s2init).store.messages =
        userRowCount acct2.chatbot_id s2init.store.messages + 1 :=
  C1_two_tenant_fanout envOk "entry1" "pn1" textMsg [] acct1 acct2 s2init cb1 cb2
    rfl (by decide) (by decide) (by decide) (by decide) (by decide)
    (by decide) (by decide)

/-- C7: `fetchRecentHistory` returns at most `limit` elements; the returned
sequence is the `{role, content}` projection of a selection of stored rows
that is sorted ascending by creation time, each selected row coming from the
store and matching the conversation scope, with role `"user"` exactly for
inbound rows and `"assistant"` otherwise. -/
theorem C7_fetchRecentHistory_spec (chatbotId convId : String) (limit : Nat)
    (msgs : List MessageRow) :
    (fetchRecentHistory chatbotId convId limit msgs).length ≤ limit ∧
    ∃ rows : List MessageRow,
      rows.length ≤ limit ∧
      List.Sorted byCreated rows ∧
      (∀ r ∈ rows, r ∈ msgs ∧ (r.chatbot_id == chatbotId &&
        r.unique_conv_id == convId && r.channel == "WHATSAPP") = true) ∧
      fetchRecentHistory chatbotId convId limit msgs = rows.map (fun r =>
        { role := if r.type == "user" then "user" else "assistant",
          content := r.content }) := by
  have hlen : (fetchRecentHistorySelect chatbotId convId limit msgs).length ≤ limit := by
    unfold fetchRecentHistorySelect
    exact List.length_take_le _ _
  refine ⟨?_, fetchRecentHistorySelect chatbotId convId limit msgs, hlen, ?_, ?_, rfl⟩
  · unfold fetchRecentHistory
    rw [List.length_map]
    exact hlen
  · unfold fetchRecentHistorySelect sortByCreatedAt
    exact List.Pairwise.sublist (List.take_sublist _ _)
      (List.sorted_insertionSort byCreated _)
  · intro r hr
    unfold fetchRecentHistorySelect sortByCreatedAt at hr
    have hr1 := List.take_subset _ _ hr
    have hr2 := (List.perm_insertionSort byCreated _).subset hr1
    exact List.mem_filter.1 hr2

/-- A map that fixes every element of a list is the identity on it. -/
theorem map_id_of {α : Type} (f : α → α) (l : List α) (h : ∀ a ∈ l, f a = a) :
    l.map f = l := by
  induction l with
  | nil => rfl
  | cons x xs ih => simp_all

/-- `find?` on a list whose filtrate is a singleton returns that element
(models `SELECT ... LIMIT 1` with exactly one matching row). -/
theorem filter_eq_singleton_find? {α : Type} (p : α → Bool) (l : List α)
    (r : α) (h : l.filter p = [r]) : l.find? p = some r := by
  induction l with
  | nil => simp at h
  | cons x xs ih =>
      by_cases hx : p x = true
      · rw [List.filter_cons_of_pos hx] at h
        obtain ⟨h1, h2⟩ := List.cons_eq_cons.1 h
        rw [List.find?_cons_of_pos _ hx, h1]
      · rw [List.filter_cons_of_neg (by simpa using hx)] at h
        rw [List.find?_cons_of_neg _ hx]
        exact ih h

/-- `find?` on a list whose filtrate is empty returns nothing
(models `SELECT ... LIMIT 1` with zero matching rows). -/
theorem filter_eq_nil_find? {α : Type} (p : α → Bool) (l : List α)
    (h : l.filter p = []) : l.find? p = none :=
  List.find?_eq_none.2 (List.filter_eq_nil_iff.1 h)

/-- Filtering commutes with a map that does not change the predicate. -/
theorem filter_map_pred_invariant {α : Type} (p : α → Bool) (f : α → α)
    (l : List α) (hf : ∀ a, p (f a) = p a) :
    (l.map f).filter p = (l.filter p).map f := by
  induction l with
  | nil => rfl
  | cons x xs ih =>
      by_cases hx : p x = true
      · rw [List.map_cons, List.filter_cons_of_pos (by rw [hf]; exact hx),
          List.filter_cons_of_pos hx, List.map_cons, ih]
      · rw [List.map_cons, List.filter_cons_of_neg (by rw [hf]; simpa using hx),
          List.filter_cons_of_neg (by simpa using hx), ih]

/-- The last element of a nonempty list via `getLast?` with a default head. -/
theorem getLast?_cons_eq {α : Type} (a : α) (l : List α) :
    (a :: l).getLast? = some (l.getLast?.getD a) := by
  induction l generalizing a with
  | nil => rfl
  | cons b m ih =>
      rw [List.getLast?_cons_cons, ih b]
      rfl

/-- Replaying a call sequence started with `c0` lands on the last call's
timestamp. -/
theorem lastSeenAfter_toISO (c0 : UpsertCall) (rest : List UpsertCall) :
    lastSeenAfter (toISOString c0.ts) rest =
      toISOString ((rest.getLast?.getD c0).ts) := by
  induction rest generalizing c0 with
  | nil => rfl
  | cons c2 cs ih =>
      show lastSeenAfter (toISOString c2.ts) cs = _
      rw [ih c2, getLast?_cons_eq]
      rfl

/-- Upsert against a store with no row for the pair: a fresh row is inserted
carrying the call's timestamp as `last_seen_at`, and its id is returned. -/
theorem upsertContact_fresh (account : Account) (f n t mid : String)
    (s : ProcState)
    (h0 : contactRowsFor account.chatbot_id f s.store.contacts = []) :
    ∃ newRow : Contact,
      (upsertContact account f n t mid s).1 = newRow.id ∧
      newRow.whatsapp_user_metadata.last_seen_at = t ∧
      contactRowsFor account.chatbot_id f
        (upsertContact account f n t mid s).2.store.contacts = [newRow] := by
  have hfind : s.store.contacts.find? (fun c =>
      c.chatbot_id == account.chatbot_id && c.phone_number == f) = none :=
    filter_eq_nil_find? _ _ h0
  refine ⟨{ id := "cuid_" ++ toString s.nextId, chatbot_id := account.chatbot_id,
            phone_number := f, display_name := n,
            whatsapp_user_metadata :=
              { wa_id := f, profile_name := n, first_seen_at := t,
                last_seen_at := t, last_inbound_message_id := mid,
                waba_id := account.waba_id,
                phone_number_id := account.phone_number_id,
                display_phone_number := account.phone_number } },
    ?_, rfl, ?_⟩
  · simp [upsertContact, hfind, genId]
  · simp only [upsertContact, hfind, genId]
    unfold contactRowsFor at h0 ⊢
    rw [List.filter_append, h0]
    simp

/-- Upsert against a store whose rows for the pair are exactly `[r]`: the
existing id is returned, and the pair's rows become exactly the updated `r`
(new display name, `last_seen_at` overwritten, all identifying fields kept). -/
theorem upsertContact_existing (account : Account) (f n t mid : String)
    (s : ProcState) (r : Contact)
    (hr : contactRowsFor account.chatbot_id f s.store.contacts = [r]) :
    (upsertContact account f n t mid s).1 = r.id ∧
    contactRowsFor account.chatbot_id f
      (upsertContact account f n t mid s).2.store.contacts =
      [{ r with display_name := n,
                whatsapp_user_metadata :=
                  { r.whatsapp_user_metadata with last_seen_at := t } }] := by
  have hfind : s.store.contacts.find? (fun c =>
      c.chatbot_id == account.chatbot_id && c.phone_number == f) = some r :=
    filter_eq_singleton_find? _ _ _ hr
  refine ⟨?_, ?_⟩
  · simp [upsertContact, hfind]
  · simp only [upsertContact, hfind]
    unfold contactRowsFor at hr ⊢
    rw [filter_map_pred_invariant _ _ _ (by
      intro c
      by_cases hc : (c.id == r.id) = true <;> simp [hc])]
    rw [hr]
    simp

/-- Invariant of iterated upserts over a pair that already has exactly one
row: the row count stays one, every returned id is the existing id, and
`last_seen_at` replays the call sequence. -/
theorem runUpserts_inv (account : Account) (f : String) :
    ∀ (calls : List UpsertCall) (s : ProcState) (r : Contact),
      contactRowsFor account.chatbot_id f s.store.contacts = [r] →
      ∃ r' : Contact,
        contactRowsFor account.chatbot_id f
          (runUpserts account f calls s).2.store.contacts = [r'] ∧
        r'.id = r.id ∧
        (∀ i ∈ (runUpserts account f calls s).1, i = r.id) ∧
        r'.whatsapp_user_metadata.last_seen_at =
          lastSeenAfter r.whatsapp_user_metadata.last_seen_at calls ∧
        (runUpserts account f calls s).1.length = calls.length := by
  intro calls
  induction calls with
  | nil =>
      intro s r hr
      exact ⟨r, hr, rfl, by intro i hi; simp [runUpserts] at hi, rfl, rfl⟩
  | cons c cs ih =>
      intro s r hr
      have hstep := upsertContact_existing account f c.customerName
        (toISOString c.ts) c.messageId s r hr
      rcases hu : upsertContact account f c.customerName (toISOString c.ts)
          c.messageId s with ⟨cid, s1⟩
      rw [hu] at hstep
      dsimp only at hstep
      obtain ⟨r2, hrows2, hid2, hids2, hlast2, hlen2⟩ := ih s1 _ hstep.2
      refine ⟨r2, ?_, ?_, ?_, ?_, ?_⟩
      · simp only [runUpserts, hu]
        exact hrows2
      · rw [hid2]
      · intro i hi
        simp only [runUpserts, hu] at hi
        rcases List.mem_cons.1 hi with h | h
        · rw [h, hstep.1]
        · exact hids2 i h
      · exact hlast2
      · simp only [runUpserts, hu]
        simpa using hlen2

/-- C8: starting from a store with no contact row for the (botId,
phoneNumber) pair, after N ≥ 1 upsert calls exactly one contact row exists
for the pair, every call returned that row's id, and the stored
`last_seen_at` equals the last call's timestamp. -/
theorem C8_upsert_idempotent (account : Account) (from_ : String)
    (c0 : UpsertCall) (rest : List UpsertCall) (s : ProcState)
    (h0 : contactRowsFor account.chatbot_id from_ s.store.contacts = []) :
    ∃ r : Contact,
      contactRowsFor account.chatbot_id from_
        (runUpserts account from_ (c0 :: rest) s).2.store.contacts = [r] ∧
      (∀ i ∈ (runUpserts account from_ (c0 :: rest) s).1, i = r.id) ∧
      r.whatsapp_user_metadata.last_seen_at =
        toISOString ((rest.getLast?.getD c0).ts) ∧
      (runUpserts account from_ (c0 :: rest) s).1.length = rest.length + 1 := by
  obtain ⟨newRow, hid, hlast, hrows⟩ := upsertContact_fresh account from_
    c0.customerName (toISOString c0.ts) c0.messageId s h0
  rcases hu : upsertContact account from_ c0.customerName (toISOString c0.ts)
      c0.messageId s with ⟨cid, s1⟩
  rw [hu] at hid hrows
  dsimp only at hid hrows
  obtain ⟨r2, hrows2, hid2, hids2, hlast2, hlen2⟩ :=
    runUpserts_inv account from_ rest s1 newRow hrows
  refine ⟨r2, ?_, ?_, ?_, ?_⟩
  · simp only [runUpserts, hu]
    exact hrows2
  · intro i hi
    simp only [runUpserts, hu] at hi
    rw [hid2]
    rcases List.mem_cons.1 hi with h | h
    · rw [h, hid]
    · exact hids2 i h
  · rw [hlast2, hlast]
    exact lastSeenAfter_toISO c0 rest
  · simp only [runUpserts, hu]
    simpa using hlen2

/-- C8 witness: two concrete upsert calls on an empty store leave exactly one
contact row whose `last_seen_at` is the second call's timestamp, with both
calls returning that row's id. -/
theorem C8_upsert_idempotent_witness :
    (contactRowsFor acct1.chatbot_id "15557777" s0.store.contacts = []) ∧
    ∃ r : Contact,
      contactRowsFor acct1.chatbot_id "15557777"
        (runUpserts acct1 "15557777"
          [⟨"Ana", 11, "m1"⟩, ⟨"Bea", 22, "m2"⟩] s0).2.store.contacts = [r] ∧
      (∀ i ∈ (runUpserts acct1 "15557777"
          [⟨"Ana", 11, "m1"⟩, ⟨"Bea", 22, "m2"⟩] s0).1, i = r.id) ∧
      r.whatsapp_user_metadata.last_seen_at =
        toISOString (([⟨"Bea", 22, "m2"⟩] :
          List UpsertCall).getLast?.getD ⟨"Ana", 11, "m1"⟩).ts ∧
      (runUpserts acct1 "15557777"
          [⟨"Ana", 11, "m1"⟩, ⟨"Bea", 22, "m2"⟩] s0).1.length = 1 + 1 :=
  ⟨by decide, C8_upsert_idempotent acct1 "15557777" ⟨"Ana", 11, "m1"⟩
    [⟨"Bea", 22, "m2"⟩] s0 (by decide)⟩

/-- C6 counterexample: the status UPDATE has no recency restriction — its
WHERE clause is only `channel = 'WHATSAPP' AND metadata->>'waMessageId' = id`.
On a store holding two rows that reference `wamid.X` (created_at 1 and 2),
the event merges `status` into BOTH rows, while the claim says only the most
recent row (created_at 2) receives the merge, leaving the older unchanged. -/
theorem C6_counterexample :
    (s6fix.store.messages.map (fun r =>
      (r.created_at, r.channel_message_metadata.waMessageId,
       r.channel_message_metadata.status))) =
      [(1, "wamid.X", none), (2, "wamid.X", none)] ∧
    ((processMessageStatus acct1 ev6 s6fix).store.messages.map (fun r =>
      (r.created_at, r.channel_message_metadata.status))) =
      [(1, some "delivered"), (2, some "delivered")] :=
  ⟨by decide, by decide⟩

/-- C6 (amended: the merge applies to EVERY stored row whose metadata
references the provider message id, not only the most recent): when no row
references the id the update is a no-op on the state and never errors; in
general the row list keeps its length and order, each matching row gets
`status` merged into its metadata with all other fields kept, each
non-matching row is untouched; and the POST handler acknowledges 200 for
every provider-tagged delivery independently of status processing. -/
theorem C6_status_update_merges_all (account : Account) (ev : StatusEvent)
    (s : ProcState) :
    ((∀ r ∈ s.store.messages,
        ¬(r.channel = "WHATSAPP" ∧
          r.channel_message_metadata.waMessageId = ev.id)) →
      processMessageStatus account ev s = s) ∧
    (∀ i : Nat, (processMessageStatus account ev s).store.messages.get? i =
      (s.store.messages.get? i).map (fun r =>
        if r.channel = "WHATSAPP" ∧
            r.channel_message_metadata.waMessageId = ev.id then
          { r with channel_message_metadata :=
              { r.channel_message_metadata with status := some ev.status } }
        else r)) ∧
    (∀ env payload s1, (postWebhookAfterSig env payload s1).1.status = 200) := by
  refine ⟨?_, ?_, ?_⟩
  · intro h
    unfold processMessageStatus
    rw [map_id_of _ _ (fun r hr => if_neg (h r hr))]
  · intro i
    unfold processMessageStatus
    simp [List.get?_eq_getElem?, List.getElem?_map]
  · intro env payload s1
    unfold postWebhookAfterSig
    split <;> rfl

/-- C6 witness: a status event whose provider id matches nothing leaves the
state unchanged. -/
theorem C6_status_update_merges_all_witness :
    processMessageStatus acct1 ev6b s0 = s0 :=
  (C6_status_update_merges_all acct1 ev6b s0).1 (by decide)

/-- C9 counterexample: the signature stage runs before the provider-tag
check, so a POST whose body's object tag is not the provider tag but whose
`x-hub-signature-256` header is invalid (secret configured) is answered 401,
not 200 with the not-a-WhatsApp body — the claim does not hold of *every*
such POST. -/
theorem C9_counterexample :
    pagePayload.object ≠ "whatsapp_business_account" ∧
    (postWebhook envOk (fun _ _ => "aa") (some "k") (some "sha256=bb") "body"
        pagePayload s0).1.status = 401 :=
  ⟨by decide, by decide⟩

/-- C9 (amended: restricted to requests that pass or skip the signature
stage — header absent, secret unconfigured, or signature valid): a POST whose
body's top-level object tag is not `whatsapp_business_account` is answered
200 with `success:true, message:"Not a WhatsApp webhook event"`, and the
state — in particular the persistent store — is returned unchanged: no
persistence write occurs. -/
theorem C9_not_whatsapp_no_write (env : Env)
    (hmacHex : String → String → String) (appSecret signature : Option String)
    (rawBody : String) (payload : Payload) (s : ProcState)
    (hsig : jsTruthy signature = true → jsTruthy appSecret = true →
      verifyWebhookSignature hmacHex rawBody (signature.getD "")
        (appSecret.getD "") = true)
    (hobj : payload.object ≠ "whatsapp_business_account") :
    postWebhook env hmacHex appSecret signature rawBody payload s =
      ({ status := 200, success := true,
         message := some "Not a WhatsApp webhook event", error := none }, s) := by
  unfold postWebhook
  by_cases h : (jsTruthy signature = true ∧ jsTruthy appSecret = true)
  · rw [if_pos h, if_neg (by rw [hsig h.1 h.2]; simp)]
    unfold postWebhookAfterSig
    rw [if_pos hobj]
  · rw [if_neg h]
    unfold postWebhookAfterSig
    rw [if_pos hobj]

/-- C9 witness: a signature-less POST carrying a `page` object is answered
200 with the not-a-WhatsApp body and the store is untouched. -/
theorem C9_not_whatsapp_no_write_witness :
    postWebhook envOk (fun _ _ => "aa") none none "body" pagePayload s0 =
      ({ status := 200, success := true,
         message := some "Not a WhatsApp webhook event", error := none }, s0) :=
  C9_not_whatsapp_no_write envOk (fun _ _ => "aa") none none "body"
    pagePayload s0 (fun h _ => absurd h (by decide)) (by decide)

end WebhookWA
